import Mathlib

/-!
Verification development for the Verdis drone-survey backend.

The definitions below are shallow embeddings of the Python source under
`src/backend/`: the per-pixel health classification and vegetation-index
stages (`ndvi.py`, `opencv_service.py`), the NodeODM client's polling,
download and cleanup logic (`nodeodm_client.py`), and the ODM service's
backend selection, fallback and local runner (`odm_service.py`).
Machine floats in the source are modelled by rationals; HTTP and
filesystem effects are modelled by explicit outcome parameters.
-/

namespace Verdis

/-! ## Health classification (`ndvi.py` `analyze_crop_health`,
`opencv_service.py` `analyze_crop_health`)

The stage converts the BGR mosaic to HSV and applies `cv2.inRange`
thresholds to the HSV pixels.  We embed the stage from the HSV image on:
a pixel is the triple of its 8-bit hue, saturation and value channels,
and an image is the (row-major flattened) list of its pixels; the pixel
count `image.shape[0] * image.shape[1]` is the list length. -/

structure HSVPixel where
  h : ℕ
  s : ℕ
  v : ℕ
deriving DecidableEq, Repr

/-- `cv2.inRange(hsv, lower, upper)`: a pixel passes iff every channel
lies inclusively between the corresponding lower and upper bound. -/
def inRange (p : HSVPixel) (lh ls lv uh us uv : ℕ) : Bool :=
  decide (lh ≤ p.h) && decide (p.h ≤ uh) &&
  decide (ls ≤ p.s) && decide (p.s ≤ us) &&
  decide (lv ≤ p.v) && decide (p.v ≤ uv)

/-- `healthy_mask = cv2.inRange(hsv, [35, 40, 40], [85, 255, 255])`. -/
def healthyMask (p : HSVPixel) : Bool := inRange p 35 40 40 85 255 255

/-- `stressed_mask = cv2.inRange(hsv, [15, 40, 40], [35, 255, 255])`. -/
def stressedMask (p : HSVPixel) : Bool := inRange p 15 40 40 35 255 255

/-- `unhealthy_mask = cv2.inRange(hsv, [0, 40, 40], [15, 255, 255])`. -/
def unhealthyMask (p : HSVPixel) : Bool := inRange p 0 40 40 15 255 255

/-- `np.sum(mask > 0)`: the number of pixels a mask selects. -/
def countMask (mask : HSVPixel → Bool) (img : List HSVPixel) : ℕ :=
  (img.filter mask).length

/-- `healthy_pct = healthy / total * 100`. -/
def healthyPct (img : List HSVPixel) : ℚ :=
  (countMask healthyMask img : ℚ) / (img.length : ℚ) * 100

/-- `stressed_pct = stressed / total * 100`. -/
def stressedPct (img : List HSVPixel) : ℚ :=
  (countMask stressedMask img : ℚ) / (img.length : ℚ) * 100

/-- `unhealthy_pct = unhealthy / total * 100`. -/
def unhealthyPct (img : List HSVPixel) : ℚ :=
  (countMask unhealthyMask img : ℚ) / (img.length : ℚ) * 100

/-- `ndvi.py` line 89:
`score = (healthy_pct * 1.0 + stressed_pct * 0.5) / 100`.
The dict entry `overall_health_score` is this value rounded to three
decimals; the rounding is monotone and does not affect the properties
proved below. -/
def overallHealthScore (img : List HSVPixel) : ℚ :=
  (healthyPct img * 1 + stressedPct img * (1 / 2)) / 100

/-- `opencv_service.py` line 192: `health_score = (healthy_percentage *
1.0 + stressed_percentage * 0.5 + unhealthy_percentage * 0.0) / 100`. -/
def overallHealthScoreSvc (img : List HSVPixel) : ℚ :=
  (healthyPct img * 1 + stressedPct img * (1 / 2) + unhealthyPct img * 0) / 100

/-- The score as a function of the two percentages alone, which the claim
says the stage factors through. -/
def scoreOfPcts (hp sp : ℚ) : ℚ := (hp * 1 + sp * (1 / 2)) / 100

lemma countMask_le_length (mask : HSVPixel → Bool) (img : List HSVPixel) :
    countMask mask img ≤ img.length :=
  List.length_filter_le mask img

lemma pct_nonneg (mask : HSVPixel → Bool) (img : List HSVPixel) :
    0 ≤ (countMask mask img : ℚ) / (img.length : ℚ) * 100 := by
  positivity

lemma pct_le_100 (mask : HSVPixel → Bool) (img : List HSVPixel)
    (hne : img ≠ []) :
    (countMask mask img : ℚ) / (img.length : ℚ) * 100 ≤ 100 := by
  have hlen : 0 < img.length := List.length_pos.mpr hne
  have hlenQ : (0 : ℚ) < (img.length : ℚ) := by exact_mod_cast hlen
  have hcount : (countMask mask img : ℚ) ≤ (img.length : ℚ) := by
    exact_mod_cast countMask_le_length mask img
  have hdiv : (countMask mask img : ℚ) / (img.length : ℚ) ≤ 1 :=
    (div_le_one hlenQ).mpr hcount
  nlinarith

lemma healthyPct_nonneg (img : List HSVPixel) : 0 ≤ healthyPct img :=
  pct_nonneg _ _

lemma stressedPct_nonneg (img : List HSVPixel) : 0 ≤ stressedPct img :=
  pct_nonneg _ _

lemma unhealthyPct_nonneg (img : List HSVPixel) : 0 ≤ unhealthyPct img :=
  pct_nonneg _ _

lemma healthyMask_iff (p : HSVPixel) :
    healthyMask p = true ↔
      35 ≤ p.h ∧ p.h ≤ 85 ∧ 40 ≤ p.s ∧ p.s ≤ 255 ∧ 40 ≤ p.v ∧ p.v ≤ 255 := by
  simp [healthyMask, inRange, and_assoc]

lemma stressedMask_iff (p : HSVPixel) :
    stressedMask p = true ↔
      15 ≤ p.h ∧ p.h ≤ 35 ∧ 40 ≤ p.s ∧ p.s ≤ 255 ∧ 40 ≤ p.v ∧ p.v ≤ 255 := by
  simp [stressedMask, inRange, and_assoc]

lemma unhealthyMask_iff (p : HSVPixel) :
    unhealthyMask p = true ↔
      p.h ≤ 15 ∧ 40 ≤ p.s ∧ p.s ≤ 255 ∧ 40 ≤ p.v ∧ p.v ≤ 255 := by
  simp [unhealthyMask, inRange, and_assoc]

/-- C1 -- counterexample.  The claim asserts the overall health score
always lies in [0,1].  The one-pixel image whose HSV pixel is
(35, 255, 255) (produced e.g. by the BGR pixel (0, 255, 213)) lies in
both the healthy and the stressed hue band, because `cv2.inRange` is
inclusive at both ends, so its score is (100*1.0 + 100*0.5)/100 = 1.5 > 1. -/
theorem overall_score_above_one_cex :
    overallHealthScore [⟨35, 255, 255⟩] = 3 / 2 ∧
      ¬ overallHealthScore [⟨35, 255, 255⟩] ≤ 1 := by
  have h : overallHealthScore [⟨35, 255, 255⟩] = 3 / 2 := by
    norm_num [overallHealthScore, healthyPct, stressedPct, countMask,
      healthyMask, stressedMask, inRange]
  exact ⟨h, by rw [h]; norm_num⟩

/-- C1 (amended).  For every nonempty image, the overall health score
equals `(healthyPct*1.0 + stressedPct*0.5)/100`, is a pure function of
`healthyPct` and `stressedPct` alone (it factors through `scoreOfPcts`,
and the `opencv_service.py` variant with the extra `unhealthyPct*0.0`
term computes the same value), and lies within [0, 1.5]; it lies within
[0,1] whenever `healthyPct + stressedPct ≤ 100` (in particular whenever
no pixel falls in two hue bands). -/
theorem overall_score_formula_and_bounds (img : List HSVPixel)
    (hne : img ≠ []) :
    overallHealthScore img = scoreOfPcts (healthyPct img) (stressedPct img) ∧
    overallHealthScoreSvc img = overallHealthScore img ∧
    0 ≤ overallHealthScore img ∧
    overallHealthScore img ≤ 3 / 2 ∧
    (healthyPct img + stressedPct img ≤ 100 → overallHealthScore img ≤ 1) := by
  have hh0 := healthyPct_nonneg img
  have hs0 := stressedPct_nonneg img
  have hh1 : healthyPct img ≤ 100 := pct_le_100 _ _ hne
  have hs1 : stressedPct img ≤ 100 := pct_le_100 _ _ hne
  refine ⟨rfl, ?_, ?_, ?_, ?_⟩
  · simp [overallHealthScoreSvc, overallHealthScore]
  · unfold overallHealthScore; positivity
  · unfold overallHealthScore; nlinarith
  · intro hsum; unfold overallHealthScore; nlinarith

/-- C1 -- witness for `overall_score_formula_and_bounds` at the
one-pixel image with HSV pixel (50, 100, 100). -/
theorem overall_score_formula_and_bounds_witness :
    (([⟨50, 100, 100⟩] : List HSVPixel) ≠ []) ∧
    (overallHealthScore [⟨50, 100, 100⟩] =
        scoreOfPcts (healthyPct [⟨50, 100, 100⟩]) (stressedPct [⟨50, 100, 100⟩]) ∧
      overallHealthScoreSvc [⟨50, 100, 100⟩] = overallHealthScore [⟨50, 100, 100⟩] ∧
      0 ≤ overallHealthScore [⟨50, 100, 100⟩] ∧
      overallHealthScore [⟨50, 100, 100⟩] ≤ 3 / 2 ∧
      (healthyPct [⟨50, 100, 100⟩] + stressedPct [⟨50, 100, 100⟩] ≤ 100 →
        overallHealthScore [⟨50, 100, 100⟩] ≤ 1)) :=
  ⟨by decide, overall_score_formula_and_bounds [⟨50, 100, 100⟩] (by decide)⟩

/-- C2 -- counterexample.  The claim asserts the three classification
masks are pairwise pixel-disjoint.  `cv2.inRange` is inclusive at both
ends, so the HSV pixel (35, 255, 255) (e.g. BGR (0, 255, 213)) is
selected by both the healthy band [35,85] and the stressed band [15,35];
likewise (15, 255, 255) is both stressed and unhealthy. -/
theorem masks_not_disjoint_cex :
    healthyMask ⟨35, 255, 255⟩ = true ∧ stressedMask ⟨35, 255, 255⟩ = true ∧
    stressedMask ⟨15, 255, 255⟩ = true ∧ unhealthyMask ⟨15, 255, 255⟩ = true ∧
    ¬ (∀ p : HSVPixel, ¬ (healthyMask p = true ∧ stressedMask p = true)) := by
  refine ⟨by decide, by decide, by decide, by decide, fun hall => ?_⟩
  exact hall ⟨35, 255, 255⟩ ⟨by decide, by decide⟩

/-- C2 (amended).  For every nonempty image each of the three health
percentages lies within [0,100]; the healthy and unhealthy masks are
disjoint, and the only overlaps between bands occur exactly at the
shared boundary hues: a pixel in both the healthy and the stressed band
has hue exactly 35, and a pixel in both the stressed and the unhealthy
band has hue exactly 15. -/
theorem pct_bounds_and_band_overlap (img : List HSVPixel) (hne : img ≠ []) :
    (0 ≤ healthyPct img ∧ healthyPct img ≤ 100) ∧
    (0 ≤ stressedPct img ∧ stressedPct img ≤ 100) ∧
    (0 ≤ unhealthyPct img ∧ unhealthyPct img ≤ 100) ∧
    (∀ p : HSVPixel,
      ¬ (healthyMask p = true ∧ unhealthyMask p = true) ∧
      (healthyMask p = true → stressedMask p = true → p.h = 35) ∧
      (stressedMask p = true → unhealthyMask p = true → p.h = 15)) := by
  refine ⟨⟨healthyPct_nonneg img, pct_le_100 _ _ hne⟩,
    ⟨stressedPct_nonneg img, pct_le_100 _ _ hne⟩,
    ⟨unhealthyPct_nonneg img, pct_le_100 _ _ hne⟩, fun p => ?_⟩
  refine ⟨fun ⟨h1, h2⟩ => ?_, fun h1 h2 => ?_, fun h1 h2 => ?_⟩
  · rw [healthyMask_iff] at h1; rw [unhealthyMask_iff] at h2; omega
  · rw [healthyMask_iff] at h1; rw [stressedMask_iff] at h2; omega
  · rw [stressedMask_iff] at h1; rw [unhealthyMask_iff] at h2; omega

/-- C2 -- witness for `pct_bounds_and_band_overlap` at the one-pixel
image with HSV pixel (50, 100, 100). -/
theorem pct_bounds_and_band_overlap_witness :
    (([⟨50, 100, 100⟩] : List HSVPixel) ≠ []) ∧
    ((0 ≤ healthyPct [⟨50, 100, 100⟩] ∧ healthyPct [⟨50, 100, 100⟩] ≤ 100) ∧
      (0 ≤ stressedPct [⟨50, 100, 100⟩] ∧ stressedPct [⟨50, 100, 100⟩] ≤ 100) ∧
      (0 ≤ unhealthyPct [⟨50, 100, 100⟩] ∧ unhealthyPct [⟨50, 100, 100⟩] ≤ 100) ∧
      (∀ p : HSVPixel,
        ¬ (healthyMask p = true ∧ unhealthyMask p = true) ∧
        (healthyMask p = true → stressedMask p = true → p.h = 35) ∧
        (stressedMask p = true → unhealthyMask p = true → p.h = 15))) :=
  ⟨by decide, pct_bounds_and_band_overlap [⟨50, 100, 100⟩] (by decide)⟩

/-! ## Vegetation-index synthesis (`ndvi.py` `generate_ndvi_map`,
`opencv_service.py` `generate_ndvi_map`)

Per pixel the source computes `ndvi = (nir - red) / (nir + red + 1e-10)`
with `nir = green`, normalizes via `(ndvi + 1) / 2` and colors the pixel
through a three-band ramp branching at 0.33 and 0.66.  Machine floats
are modelled by rationals; Python's `int(...)` on the nonnegative ramp
intensities is the floor. -/

/-- The `1e-10` division guard. -/
def ndviEps : ℚ := 1 / 10 ^ 10

/-- `ndvi = np.divide(nir - red, nir + red + 1e-10)` with `nir = green`. -/
def ndviIndex (red green : ℚ) : ℚ := (green - red) / (green + red + ndviEps)

/-- `ndvi_normalized = (ndvi + 1) / 2`. -/
def ndviNormalized (red green : ℚ) : ℚ := (ndviIndex red green + 1) / 2

/-- The per-pixel color ramp (`r, g, b` intensities) from the source's
three branches on the normalized value `val`:
`val < 0.33` gives `(255, int(255*(val/0.33)), 0)`,
`0.33 ≤ val < 0.66` gives `(int(255*(1-(val-0.33)/0.33)), 255, 0)`,
and otherwise `(0, 255, 0)`.  The source then stores the triple in BGR
channel order. -/
def rampColor (val : ℚ) : ℤ × ℤ × ℤ :=
  if val < 33 / 100 then (255, ⌊255 * (val / (33 / 100))⌋, 0)
  else if val < 66 / 100 then (⌊255 * (1 - (val - 33 / 100) / (33 / 100))⌋, 255, 0)
  else (0, 255, 0)

/-- The whole per-pixel vegetation-index stage: 8-bit red and green
channel values in, ramp color out. -/
def generateNdviPixel (red green : ℕ) : ℤ × ℤ × ℤ :=
  rampColor (ndviNormalized (red : ℚ) (green : ℚ))

lemma ndviDenom_pos (red green : ℕ) :
    0 < (green : ℚ) + (red : ℚ) + ndviEps := by
  have hr : (0 : ℚ) ≤ (red : ℚ) := Nat.cast_nonneg red
  have hg : (0 : ℚ) ≤ (green : ℚ) := Nat.cast_nonneg green
  have : (0 : ℚ) < ndviEps := by norm_num [ndviEps]
  linarith

lemma ndviIndex_bounds (red green : ℕ) :
    -1 ≤ ndviIndex (red : ℚ) (green : ℚ) ∧ ndviIndex (red : ℚ) (green : ℚ) ≤ 1 := by
  have hD := ndviDenom_pos red green
  have hr : (0 : ℚ) ≤ (red : ℚ) := Nat.cast_nonneg red
  have hg : (0 : ℚ) ≤ (green : ℚ) := Nat.cast_nonneg green
  have heps : (0 : ℚ) < ndviEps := by norm_num [ndviEps]
  constructor
  · rw [ndviIndex, le_div_iff₀ hD]; linarith
  · rw [ndviIndex, div_le_one hD]; linarith

/-- C8.  For every pixel with 8-bit red and green channels, the
vegetation-index stage computes the ramp color of the normalized index
`((green - red)/(green + red + 1e-10) + 1)/2` (near-infrared approximated
by the green channel, `ε = 1e-10`), the normalized value lies within
[0,1], and the banding thresholds on the normalized value are exactly
0.33 and 0.66: strictly below 0.33 the pixel is in the red band
(full red, no blue), from 0.33 up to below 0.66 in the yellow-to-green
band (full green, no blue), and from 0.66 on it is pure green. -/
theorem ndvi_pixel_ramp (red green : ℕ) (_hr : red ≤ 255) (_hg : green ≤ 255) :
    generateNdviPixel red green =
      rampColor ((((green : ℚ) - (red : ℚ)) /
        ((green : ℚ) + (red : ℚ) + 1 / 10 ^ 10) + 1) / 2) ∧
    0 ≤ ndviNormalized (red : ℚ) (green : ℚ) ∧
    ndviNormalized (red : ℚ) (green : ℚ) ≤ 1 ∧
    (ndviNormalized (red : ℚ) (green : ℚ) < 33 / 100 →
      (generateNdviPixel red green).1 = 255 ∧
      (generateNdviPixel red green).2.2 = 0) ∧
    (33 / 100 ≤ ndviNormalized (red : ℚ) (green : ℚ) →
      ndviNormalized (red : ℚ) (green : ℚ) < 66 / 100 →
      (generateNdviPixel red green).2.1 = 255 ∧
      (generateNdviPixel red green).2.2 = 0) ∧
    (66 / 100 ≤ ndviNormalized (red : ℚ) (green : ℚ) →
      generateNdviPixel red green = (0, 255, 0)) := by
  obtain ⟨hlo, hhi⟩ := ndviIndex_bounds red green
  refine ⟨rfl, ?_, ?_, ?_, ?_, ?_⟩
  · rw [ndviNormalized]; linarith
  · rw [ndviNormalized]; linarith
  · intro hband
    rw [generateNdviPixel, rampColor, if_pos hband]
    exact ⟨rfl, rfl⟩
  · intro hband1 hband2
    rw [generateNdviPixel, rampColor, if_neg (by linarith), if_pos hband2]
    exact ⟨rfl, rfl⟩
  · intro hband
    rw [generateNdviPixel, rampColor, if_neg (by linarith), if_neg (by linarith)]

/-- C8 -- witness for `ndvi_pixel_ramp` at the pixel with red channel 10
and green channel 200. -/
theorem ndvi_pixel_ramp_witness :
    (10 ≤ 255 ∧ 200 ≤ 255) ∧
    (generateNdviPixel 10 200 =
        rampColor ((((200 : ℚ) - (10 : ℚ)) /
          ((200 : ℚ) + (10 : ℚ) + 1 / 10 ^ 10) + 1) / 2) ∧
      0 ≤ ndviNormalized (10 : ℚ) (200 : ℚ) ∧
      ndviNormalized (10 : ℚ) (200 : ℚ) ≤ 1 ∧
      (ndviNormalized (10 : ℚ) (200 : ℚ) < 33 / 100 →
        (generateNdviPixel 10 200).1 = 255 ∧
        (generateNdviPixel 10 200).2.2 = 0) ∧
      (33 / 100 ≤ ndviNormalized (10 : ℚ) (200 : ℚ) →
        ndviNormalized (10 : ℚ) (200 : ℚ) < 66 / 100 →
        (generateNdviPixel 10 200).2.1 = 255 ∧
        (generateNdviPixel 10 200).2.2 = 0) ∧
      (66 / 100 ≤ ndviNormalized (10 : ℚ) (200 : ℚ) →
        generateNdviPixel 10 200 = (0, 255, 0))) :=
  ⟨⟨by norm_num, by norm_num⟩, ndvi_pixel_ramp 10 200 (by norm_num) (by norm_num)⟩

/-! ## Task polling (`nodeodm_client.py` `wait_for_task`)

The loop: at the top of each iteration it checks
`time.time() - start_time > timeout` and raises `TimeoutError` if so;
otherwise it queries the task status and either returns (`COMPLETED`),
raises (`FAILED`, or any status outside the enum), or sleeps
`poll_interval` seconds and iterates (`QUEUED`/`RUNNING`).

We model the remote statuses as an oracle `statusAt : ℕ → String`
giving the status the n-th query observes, and — as the claim assumes —
take each query as instantaneous, so the elapsed time at the top of
iteration `n` is `n * pollInterval`.  Raises are modelled by result
constructors carrying the iteration index; `timeoutError n` records that
`n` queries were issued before the raise.  The recursion is bounded by a
fuel argument; `waitLoop_ne_fuelOut` shows the chosen fuel is never
exhausted, so `fuelOut` is unreachable and the model is total exactly
like the source loop. -/

inductive WaitResult where
  | completed (n : ℕ)
  | timeoutError (n : ℕ)
  | taskFailedError (n : ℕ)
  | unknownStatusError (n : ℕ) (s : String)
  | fuelOut
deriving DecidableEq, Repr

/-- The body of `wait_for_task`, one constructor per exit path, indexed
by fuel (first argument) and the current iteration `n` (second). -/
def waitLoop (statusAt : ℕ → String) (timeout pollInterval : ℕ) :
    ℕ → ℕ → WaitResult
  | 0, n =>
    if n * pollInterval > timeout then .timeoutError n else .fuelOut
  | fuel + 1, n =>
    if n * pollInterval > timeout then .timeoutError n
    else if statusAt n = "COMPLETED" then .completed n
    else if statusAt n = "FAILED" then .taskFailedError n
    else if statusAt n = "QUEUED" ∨ statusAt n = "RUNNING" then
      waitLoop statusAt timeout pollInterval fuel (n + 1)
    else .unknownStatusError n (statusAt n)

/-- `wait_for_task(task_uuid, timeout, poll_interval)`:
run the loop from iteration 0 with enough fuel to reach the timeout. -/
def wait_for_task (statusAt : ℕ → String) (timeout pollInterval : ℕ) :
    WaitResult :=
  waitLoop statusAt timeout pollInterval (timeout / pollInterval + 1) 0

lemma waitLoop_ne_fuelOut (statusAt : ℕ → String) (N K : ℕ) :
    ∀ fuel n, N < (n + fuel) * K →
      waitLoop statusAt N K fuel n ≠ WaitResult.fuelOut := by
  intro fuel
  induction fuel with
  | zero =>
    intro n h
    have hgt : n * K > N := by simpa using h
    simp [waitLoop, hgt]
  | succ fuel ih =>
    intro n h
    rw [waitLoop]
    split_ifs with h1 h2 h3 h4
    · simp
    · simp
    · simp
    · have he : n + (fuel + 1) = n + 1 + fuel := by omega
      exact ih (n + 1) (he ▸ h)
    · simp

lemma waitLoop_completed (statusAt : ℕ → String) (N K : ℕ) :
    ∀ fuel n m, waitLoop statusAt N K fuel n = WaitResult.completed m →
      statusAt m = "COMPLETED" ∧ m * K ≤ N ∧ n ≤ m ∧
        ∀ j, n ≤ j → j < m →
          (statusAt j = "QUEUED" ∨ statusAt j = "RUNNING") ∧ j * K ≤ N := by
  intro fuel
  induction fuel with
  | zero =>
    intro n m h
    rw [waitLoop] at h
    split_ifs at h
  | succ fuel ih =>
    intro n m h
    rw [waitLoop] at h
    split_ifs at h with h1 h2 h3 h4
    · obtain rfl : n = m := by simpa using h
      exact ⟨h2, le_of_not_lt h1, le_refl _,
        fun j hj hj2 => absurd (Nat.lt_of_le_of_lt hj hj2) (Nat.lt_irrefl _)⟩
    · obtain ⟨hc, hm, hnm, hrange⟩ := ih (n + 1) m h
      refine ⟨hc, hm, by omega, fun j hj hj2 => ?_⟩
      rcases Nat.eq_or_lt_of_le hj with rfl | hjl
      · exact ⟨h4, le_of_not_lt h1⟩
      · exact hrange j hjl hj2

lemma waitLoop_failed (statusAt : ℕ → String) (N K : ℕ) :
    ∀ fuel n m, waitLoop statusAt N K fuel n = WaitResult.taskFailedError m →
      statusAt m = "FAILED" ∧ m * K ≤ N ∧ n ≤ m ∧
        ∀ j, n ≤ j → j < m →
          (statusAt j = "QUEUED" ∨ statusAt j = "RUNNING") ∧ j * K ≤ N := by
  intro fuel
  induction fuel with
  | zero =>
    intro n m h
    rw [waitLoop] at h
    split_ifs at h
  | succ fuel ih =>
    intro n m h
    rw [waitLoop] at h
    split_ifs at h with h1 h2 h3 h4
    · obtain rfl : n = m := by simpa using h
      exact ⟨h3, le_of_not_lt h1, le_refl _,
        fun j hj hj2 => absurd (Nat.lt_of_le_of_lt hj hj2) (Nat.lt_irrefl _)⟩
    · obtain ⟨hc, hm, hnm, hrange⟩ := ih (n + 1) m h
      refine ⟨hc, hm, by omega, fun j hj hj2 => ?_⟩
      rcases Nat.eq_or_lt_of_le hj with rfl | hjl
      · exact ⟨h4, le_of_not_lt h1⟩
      · exact hrange j hjl hj2

lemma waitLoop_unknown (statusAt : ℕ → String) (N K : ℕ) :
    ∀ fuel n m s,
      waitLoop statusAt N K fuel n = WaitResult.unknownStatusError m s →
      statusAt m = s ∧ s ≠ "QUEUED" ∧ s ≠ "RUNNING" ∧ s ≠ "COMPLETED" ∧
        s ≠ "FAILED" ∧ m * K ≤ N ∧ n ≤ m ∧
        ∀ j, n ≤ j → j < m →
          (statusAt j = "QUEUED" ∨ statusAt j = "RUNNING") ∧ j * K ≤ N := by
  intro fuel
  induction fuel with
  | zero =>
    intro n m s h
    rw [waitLoop] at h
    split_ifs at h
  | succ fuel ih =>
    intro n m s h
    rw [waitLoop] at h
    split_ifs at h with h1 h2 h3 h4
    · obtain ⟨hc, hq, hr, hcmp, hf, hm, hnm, hrange⟩ := ih (n + 1) m s h
      refine ⟨hc, hq, hr, hcmp, hf, hm, by omega, fun j hj hj2 => ?_⟩
      rcases Nat.eq_or_lt_of_le hj with rfl | hjl
      · exact ⟨h4, le_of_not_lt h1⟩
      · exact hrange j hjl hj2
    · obtain ⟨rfl, rfl⟩ : n = m ∧ statusAt n = s := by simpa using h
      push_neg at h4
      exact ⟨rfl, h4.1, h4.2, h2, h3, le_of_not_lt h1, le_refl _,
        fun j hj hj2 => absurd (Nat.lt_of_le_of_lt hj hj2) (Nat.lt_irrefl _)⟩

lemma waitLoop_timeout (statusAt : ℕ → String) (N K : ℕ) :
    ∀ fuel n m, waitLoop statusAt N K fuel n = WaitResult.timeoutError m →
      N < m * K ∧ n ≤ m ∧
        ∀ j, n ≤ j → j < m →
          (statusAt j = "QUEUED" ∨ statusAt j = "RUNNING") ∧ j * K ≤ N := by
  intro fuel
  induction fuel with
  | zero =>
    intro n m h
    rw [waitLoop] at h
    split_ifs at h with h1
    obtain rfl : n = m := by simpa using h
    exact ⟨h1, le_refl _,
      fun j hj hj2 => absurd (Nat.lt_of_le_of_lt hj hj2) (Nat.lt_irrefl _)⟩
  | succ fuel ih =>
    intro n m h
    rw [waitLoop] at h
    split_ifs at h with h1 h2 h3 h4
    · obtain rfl : n = m := by simpa using h
      exact ⟨h1, le_refl _,
        fun j hj hj2 => absurd (Nat.lt_of_le_of_lt hj hj2) (Nat.lt_irrefl _)⟩
    · obtain ⟨hm, hnm, hrange⟩ := ih (n + 1) m h
      refine ⟨hm, by omega, fun j hj hj2 => ?_⟩
      rcases Nat.eq_or_lt_of_le hj with rfl | hjl
      · exact ⟨h4, le_of_not_lt h1⟩
      · exact hrange j hjl hj2

lemma waitLoop_completed_conv (statusAt : ℕ → String) (N K : ℕ) :
    ∀ fuel n m, m < n + fuel → n ≤ m → m * K ≤ N →
      statusAt m = "COMPLETED" →
      (∀ j, n ≤ j → j < m →
        statusAt j = "QUEUED" ∨ statusAt j = "RUNNING") →
      waitLoop statusAt N K fuel n = WaitResult.completed m := by
  intro fuel
  induction fuel with
  | zero =>
    intro n m hlt hle
    omega
  | succ fuel ih =>
    intro n m hlt hle hbudget hc hrange
    have hnK : ¬ n * K > N := by
      have : n * K ≤ m * K := Nat.mul_le_mul_right K hle
      omega
    rcases Nat.eq_or_lt_of_le hle with heq | hstrict
    · subst heq
      rw [waitLoop, if_neg hnK, if_pos hc]
    · have hpoll := hrange n (le_refl n) hstrict
      have hnc : ¬ statusAt n = "COMPLETED" := by
        rcases hpoll with hq | hr
        · rw [hq]; decide
        · rw [hr]; decide
      have hnf : ¬ statusAt n = "FAILED" := by
        rcases hpoll with hq | hr
        · rw [hq]; decide
        · rw [hr]; decide
      rw [waitLoop, if_neg hnK, if_neg hnc, if_neg hnf, if_pos hpoll]
      exact ih (n + 1) m (by omega) hstrict hbudget hc
        (fun j hj hj2 => hrange j (by omega) hj2)

lemma lt_fuel_mul (N K : ℕ) (hK : 0 < K) : N < (N / K + 1) * K := by
  by_contra hcon
  push_neg at hcon
  have hle := (Nat.le_div_iff_mul_le hK).mpr hcon
  omega

/-- C3.  For every status oracle, budget `N` and positive poll interval
`K`, `wait_for_task` terminates (the fuel bound is never hit) and:
it returns `completed n` exactly when the n-th observed status is
`COMPLETED`, reached within budget after only `QUEUED`/`RUNNING`
statuses; it raises `TaskFailedError` only at a first `FAILED` status;
it raises `UnknownStatusError` only at a first status outside
{QUEUED, RUNNING, COMPLETED, FAILED} — fatal at once, never retried,
since all earlier polls saw `QUEUED`/`RUNNING`; and it raises
`TimeoutError` only when the elapsed time `n * K` has exceeded the
budget while every in-budget poll saw `QUEUED`/`RUNNING`. -/
theorem wait_for_task_spec (statusAt : ℕ → String) (N K : ℕ) (hK : 0 < K) :
    wait_for_task statusAt N K ≠ WaitResult.fuelOut ∧
    (∀ n, wait_for_task statusAt N K = WaitResult.completed n →
      statusAt n = "COMPLETED" ∧ n * K ≤ N ∧
        ∀ m, m < n →
          (statusAt m = "QUEUED" ∨ statusAt m = "RUNNING") ∧ m * K ≤ N) ∧
    (∀ n, statusAt n = "COMPLETED" → n * K ≤ N →
      (∀ m, m < n → statusAt m = "QUEUED" ∨ statusAt m = "RUNNING") →
      wait_for_task statusAt N K = WaitResult.completed n) ∧
    (∀ n, wait_for_task statusAt N K = WaitResult.taskFailedError n →
      statusAt n = "FAILED" ∧
        ∀ m, m < n → statusAt m = "QUEUED" ∨ statusAt m = "RUNNING") ∧
    (∀ n s, wait_for_task statusAt N K = WaitResult.unknownStatusError n s →
      statusAt n = s ∧ s ≠ "QUEUED" ∧ s ≠ "RUNNING" ∧ s ≠ "COMPLETED" ∧
        s ≠ "FAILED" ∧
        ∀ m, m < n → statusAt m = "QUEUED" ∨ statusAt m = "RUNNING") ∧
    (∀ n, wait_for_task statusAt N K = WaitResult.timeoutError n →
      N < n * K ∧
        ∀ m, m < n →
          (statusAt m = "QUEUED" ∨ statusAt m = "RUNNING") ∧ m * K ≤ N) := by
  refine ⟨?_, ?_, ?_, ?_, ?_, ?_⟩
  · exact waitLoop_ne_fuelOut statusAt N K _ 0
      (by simpa using lt_fuel_mul N K hK)
  · intro n h
    obtain ⟨hc, hb, _, hrange⟩ := waitLoop_completed statusAt N K _ 0 n h
    exact ⟨hc, hb, fun m hm => hrange m (Nat.zero_le m) hm⟩
  · intro n hc hb hrange
    have hn : n < 0 + (N / K + 1) := by
      have := (Nat.le_div_iff_mul_le hK).mpr hb
      omega
    exact waitLoop_completed_conv statusAt N K _ 0 n hn (Nat.zero_le n) hb hc
      (fun j _ hj => hrange j hj)
  · intro n h
    obtain ⟨hf, _, _, hrange⟩ := waitLoop_failed statusAt N K _ 0 n h
    exact ⟨hf, fun m hm => (hrange m (Nat.zero_le m) hm).1⟩
  · intro n s h
    obtain ⟨hs, hq, hr, hc, hf, _, _, hrange⟩ :=
      waitLoop_unknown statusAt N K _ 0 n s h
    exact ⟨hs, hq, hr, hc, hf, fun m hm => (hrange m (Nat.zero_le m) hm).1⟩
  · intro n h
    obtain ⟨hb, _, hrange⟩ := waitLoop_timeout statusAt N K _ 0 n h
    exact ⟨hb, fun m hm => hrange m (Nat.zero_le m) hm⟩

/-- C3 -- witness for `wait_for_task_spec` with a task that is `QUEUED`
on the first poll and `COMPLETED` from the second, budget 10 and
interval 5. -/
theorem wait_for_task_spec_witness :
    0 < 5 ∧
    (wait_for_task (fun n => if n = 0 then "QUEUED" else "COMPLETED") 10 5 ≠
        WaitResult.fuelOut ∧
      (∀ n, wait_for_task (fun n => if n = 0 then "QUEUED" else "COMPLETED")
            10 5 = WaitResult.completed n →
        (fun n => if n = 0 then "QUEUED" else "COMPLETED") n = "COMPLETED" ∧
          n * 5 ≤ 10 ∧
          ∀ m, m < n →
            ((fun n => if n = 0 then "QUEUED" else "COMPLETED") m = "QUEUED" ∨
              (fun n => if n = 0 then "QUEUED" else "COMPLETED") m =
                "RUNNING") ∧ m * 5 ≤ 10) ∧
      (∀ n, (fun n => if n = 0 then "QUEUED" else "COMPLETED") n =
            "COMPLETED" → n * 5 ≤ 10 →
        (∀ m, m < n →
          (fun n => if n = 0 then "QUEUED" else "COMPLETED") m = "QUEUED" ∨
            (fun n => if n = 0 then "QUEUED" else "COMPLETED") m =
              "RUNNING") →
        wait_for_task (fun n => if n = 0 then "QUEUED" else "COMPLETED")
            10 5 = WaitResult.completed n) ∧
      (∀ n, wait_for_task (fun n => if n = 0 then "QUEUED" else "COMPLETED")
            10 5 = WaitResult.taskFailedError n →
        (fun n => if n = 0 then "QUEUED" else "COMPLETED") n = "FAILED" ∧
          ∀ m, m < n →
            (fun n => if n = 0 then "QUEUED" else "COMPLETED") m = "QUEUED" ∨
              (fun n => if n = 0 then "QUEUED" else "COMPLETED") m =
                "RUNNING") ∧
      (∀ n s, wait_for_task
            (fun n => if n = 0 then "QUEUED" else "COMPLETED") 10 5 =
            WaitResult.unknownStatusError n s →
        (fun n => if n = 0 then "QUEUED" else "COMPLETED") n = s ∧
          s ≠ "QUEUED" ∧ s ≠ "RUNNING" ∧ s ≠ "COMPLETED" ∧ s ≠ "FAILED" ∧
          ∀ m, m < n →
            (fun n => if n = 0 then "QUEUED" else "COMPLETED") m = "QUEUED" ∨
              (fun n => if n = 0 then "QUEUED" else "COMPLETED") m =
                "RUNNING") ∧
      (∀ n, wait_for_task (fun n => if n = 0 then "QUEUED" else "COMPLETED")
            10 5 = WaitResult.timeoutError n →
        10 < n * 5 ∧
          ∀ m, m < n →
            ((fun n => if n = 0 then "QUEUED" else "COMPLETED") m = "QUEUED" ∨
              (fun n => if n = 0 then "QUEUED" else "COMPLETED") m =
                "RUNNING") ∧ m * 5 ≤ 10)) :=
  ⟨by norm_num,
    wait_for_task_spec (fun n => if n = 0 then "QUEUED" else "COMPLETED")
      10 5 (by norm_num)⟩

/-- C4.  With a budget of `N` seconds and a poll interval of `K` seconds
(both positive), whenever the loop raises `TimeoutError` after issuing
`q` status queries (recorded in the `timeoutError` constructor: queries
0 .. q-1 were issued before the raise), `q` is at most
`⌈N / K⌉ + 1 = (N + K - 1) / K + 1`. -/
theorem wait_for_task_poll_bound (statusAt : ℕ → String) (N K : ℕ)
    (_hN : 0 < N) (hK : 0 < K) :
    ∀ q, wait_for_task statusAt N K = WaitResult.timeoutError q →
      q ≤ (N + K - 1) / K + 1 := by
  intro q h
  obtain ⟨hq, _, hrange⟩ := waitLoop_timeout statusAt N K _ 0 q h
  have hq0 : q ≠ 0 := by
    intro h0
    subst h0
    rw [Nat.zero_mul] at hq
    omega
  have hprev : (q - 1) * K ≤ N :=
    (hrange (q - 1) (Nat.zero_le _) (by omega)).2
  have hle : q - 1 ≤ N / K := (Nat.le_div_iff_mul_le hK).mpr hprev
  have hdiv : N / K ≤ (N + K - 1) / K := Nat.div_le_div_right (by omega)
  calc q = q - 1 + 1 := by omega
    _ ≤ N / K + 1 := Nat.add_le_add_right hle 1
    _ ≤ (N + K - 1) / K + 1 := Nat.add_le_add_right hdiv 1

/-- C4 -- witness for `wait_for_task_poll_bound` with a permanently
queued task, budget 10 and interval 5: the loop polls at elapsed times
0, 5 and 10 and then times out, and 3 ≤ ⌈10/5⌉ + 1. -/
theorem wait_for_task_poll_bound_witness :
    0 < 10 ∧ 0 < 5 ∧
    (∀ q, wait_for_task (fun _ => "QUEUED") 10 5 = WaitResult.timeoutError q →
      q ≤ (10 + 5 - 1) / 5 + 1) :=
  ⟨by norm_num, by norm_num,
    wait_for_task_poll_bound (fun _ => "QUEUED") 10 5 (by norm_num)
      (by norm_num)⟩

/-! ## Artifact download and task cleanup (`nodeodm_client.py`)

HTTP interactions are modelled by their outcomes: either the request
succeeds or it fails with a `requests.exceptions.RequestException`
message (in the source every failure of these endpoints surfaces as
such an exception or is caught by a blanket `except`). -/

inductive HttpOutcome where
  | ok
  | requestError (msg : String)
deriving DecidableEq, Repr

/-- `get_task_output(task_uuid, filename, output_path)`: streams the
file to disk and returns `True`; a request failure is caught, logged and
reported as `False` -- never rethrown. -/
def get_task_output (oc : HttpOutcome) : Bool :=
  match oc with
  | .ok => true
  | .requestError _ => false

/-- `delete_task(task_uuid)`: the DELETE request is wrapped in a blanket
`except Exception` that logs and returns `False`; success returns
`True`.  The function never raises. -/
def delete_task (oc : HttpOutcome) : Bool :=
  match oc with
  | .ok => true
  | .requestError _ => false

/-- The batch-download loop of `process_drone_survey` (lines 285-291):
for each listed filename, if `get_task_output` returns `True` record
`downloaded_files[filename] = output_dir/filename`, otherwise continue
with the next file.  The dict is modelled as an association list in
insertion order. -/
def downloadOutputs (outcome : String → HttpOutcome) (outputDir : String)
    (downloads : List String) : List (String × String) :=
  downloads.foldl
    (fun acc filename =>
      if get_task_output (outcome filename) then
        acc ++ [(filename, outputDir ++ "/" ++ filename)]
      else acc)
    []

lemma downloadOutputs_aux (outcome : String → HttpOutcome)
    (outputDir : String) :
    ∀ (ds : List String) (acc : List (String × String)),
      ds.foldl
        (fun acc filename =>
          if get_task_output (outcome filename) then
            acc ++ [(filename, outputDir ++ "/" ++ filename)]
          else acc)
        acc
      = acc ++ (ds.filter (fun f => get_task_output (outcome f))).map
          (fun f => (f, outputDir ++ "/" ++ f)) := by
  intro ds
  induction ds with
  | nil => intro acc; simp
  | cons d ds ih =>
    intro acc
    by_cases hd : get_task_output (outcome d)
    · simp only [List.foldl_cons, if_pos hd, ih, List.filter_cons, hd,
        if_true, List.map_cons, List.append_assoc, List.cons_append,
        List.nil_append]
    · simp only [List.foldl_cons, if_neg hd, ih, List.filter_cons]

lemma downloadOutputs_eq (outcome : String → HttpOutcome)
    (outputDir : String) (ds : List String) :
    downloadOutputs outcome outputDir ds
      = (ds.filter (fun f => get_task_output (outcome f))).map
          (fun f => (f, outputDir ++ "/" ++ f)) := by
  rw [downloadOutputs, downloadOutputs_aux]
  exact List.nil_append _

/-- C5.  A single artifact download failure is reported as `False` and
never thrown, so the batch loop continues past it: for every list of
distinct listed artifacts, the recorded output-files mapping has exactly
the successfully downloaded names as keys -- its key list is precisely
the sublist of listed names whose download succeeded, its size is the
number of successes, a name is a key iff it was listed and its download
succeeded, and the keys are distinct. -/
theorem download_batch_spec (outcome : String → HttpOutcome)
    (outputDir : String) (downloads : List String)
    (hnd : downloads.Nodup) :
    (∀ msg, get_task_output (HttpOutcome.requestError msg) = false) ∧
    (downloadOutputs outcome outputDir downloads).map Prod.fst
      = downloads.filter (fun f => get_task_output (outcome f)) ∧
    (downloadOutputs outcome outputDir downloads).length
      = (downloads.filter (fun f => get_task_output (outcome f))).length ∧
    (∀ f, f ∈ (downloadOutputs outcome outputDir downloads).map Prod.fst ↔
      f ∈ downloads ∧ get_task_output (outcome f) = true) ∧
    ((downloadOutputs outcome outputDir downloads).map Prod.fst).Nodup := by
  have hkeys : (downloadOutputs outcome outputDir downloads).map Prod.fst
      = downloads.filter (fun f => get_task_output (outcome f)) := by
    rw [downloadOutputs_eq, List.map_map]
    exact List.map_id _
  refine ⟨fun msg => rfl, hkeys, ?_, ?_, ?_⟩
  · rw [downloadOutputs_eq, List.length_map]
  · intro f
    rw [hkeys, List.mem_filter]
  · rw [hkeys]
    exact hnd.filter _

/-- C5 -- witness for `download_batch_spec`: three listed artifacts of
which the second fails to download; the mapping keeps exactly the other
two. -/
theorem download_batch_spec_witness :
    (["a.tif", "b.tif", "c.tif"] : List String).Nodup ∧
    ((∀ msg, get_task_output (HttpOutcome.requestError msg) = false) ∧
      (downloadOutputs
          (fun f => if f = "b.tif" then HttpOutcome.requestError "404"
            else HttpOutcome.ok) "out" ["a.tif", "b.tif", "c.tif"]).map
          Prod.fst
        = (["a.tif", "b.tif", "c.tif"] : List String).filter
            (fun f => get_task_output
              (if f = "b.tif" then HttpOutcome.requestError "404"
                else HttpOutcome.ok)) ∧
      (downloadOutputs
          (fun f => if f = "b.tif" then HttpOutcome.requestError "404"
            else HttpOutcome.ok) "out" ["a.tif", "b.tif", "c.tif"]).length
        = ((["a.tif", "b.tif", "c.tif"] : List String).filter
            (fun f => get_task_output
              (if f = "b.tif" then HttpOutcome.requestError "404"
                else HttpOutcome.ok))).length ∧
      (∀ f, f ∈ (downloadOutputs
          (fun f => if f = "b.tif" then HttpOutcome.requestError "404"
            else HttpOutcome.ok) "out" ["a.tif", "b.tif", "c.tif"]).map
          Prod.fst ↔
        f ∈ (["a.tif", "b.tif", "c.tif"] : List String) ∧
          get_task_output
            (if f = "b.tif" then HttpOutcome.requestError "404"
              else HttpOutcome.ok) = true) ∧
      ((downloadOutputs
          (fun f => if f = "b.tif" then HttpOutcome.requestError "404"
            else HttpOutcome.ok) "out" ["a.tif", "b.tif", "c.tif"]).map
          Prod.fst).Nodup) ∧
    (downloadOutputs
        (fun f => if f = "b.tif" then HttpOutcome.requestError "404"
          else HttpOutcome.ok) "out" ["a.tif", "b.tif", "c.tif"]).length = 2 :=
  ⟨by decide,
    download_batch_spec
      (fun f => if f = "b.tif" then HttpOutcome.requestError "404"
        else HttpOutcome.ok) "out" ["a.tif", "b.tif", "c.tif"] (by decide),
    by decide⟩

/-- The dict returned by `NodeODMClient.process_drone_survey` (success
and error shapes merged; fields absent in the Python error dict are the
neutral values used nowhere afterwards). -/
structure SurveyDict where
  status : String
  error : Option String
  task_uuid : String
  orthomosaic_path : Option String
  ndvi_path : Option String
  output_files : List (String × String)
deriving DecidableEq, Repr

/-- `downloaded_files.get(name)` on the association-list model. -/
def lookupFile (files : List (String × String)) (k : String) :
    Option String :=
  (files.find? (fun p => p.1 == k)).map Prod.snd

/-- Python's `a or b` on optional nonempty path strings. -/
def orFallback (a b : Option String) : Option String :=
  match a with
  | some x => some x
  | none => b

/-- The environment of one `process_drone_survey` call after
`create_task` returned a task id: the outcome of `wait_for_task` (an
exception message if it raised), the outcome of listing the downloads,
the per-file download outcomes, and the outcome of the cleanup DELETE. -/
structure NodeodmEnv where
  taskUuid : String
  waitOutcome : Except String Unit
  listOutcome : Except String (List String)
  dlOutcome : String → HttpOutcome
  outputDir : String
  deleteOutcome : HttpOutcome

/-- `process_drone_survey` (lines 273-320) after `create_task`
succeeded: the try-block waits, lists and downloads, and builds the
success dict; any raise inside it is caught by the `except` clause which
builds the error dict; the `finally` clause calls `delete_task` on every
path.  The pair returns the dict together with the `delete_task` result,
which is produced on every path and never influences the dict. -/
def nodeodm_process_drone_survey (env : NodeodmEnv) : SurveyDict × Bool :=
  let body : SurveyDict :=
    match env.waitOutcome with
    | .error e => ⟨"error", some e, env.taskUuid, none, none, []⟩
    | .ok _ =>
      match env.listOutcome with
      | .error e => ⟨"error", some e, env.taskUuid, none, none, []⟩
      | .ok downloads =>
        let files := downloadOutputs env.dlOutcome env.outputDir downloads
        ⟨"success", none, env.taskUuid,
          orFallback (lookupFile files "orthophoto.tif")
            (lookupFile files "odm_orthophoto.tif"),
          orFallback (lookupFile files "ndvi.tif")
            (lookupFile files "odm_ndvi.tif"),
          files⟩
  (body, delete_task env.deleteOutcome)

/-- C6.  `delete_task` never raises: it is a total boolean function,
`True` on success and `False` (after logging) on any failure.  In
`process_drone_survey`, the cleanup delete runs on every exit path after
task creation -- the success path, the caught-exception error path --
via the `finally` clause, and its outcome never alters the delivered
result dict. -/
theorem delete_task_cleanup_spec (env : NodeodmEnv) :
    delete_task HttpOutcome.ok = true ∧
    (∀ msg, delete_task (HttpOutcome.requestError msg) = false) ∧
    (nodeodm_process_drone_survey env).2 = delete_task env.deleteOutcome ∧
    (∀ oc oc',
      (nodeodm_process_drone_survey { env with deleteOutcome := oc }).1 =
        (nodeodm_process_drone_survey { env with deleteOutcome := oc' }).1) ∧
    (∀ e, env.waitOutcome = Except.error e →
      (nodeodm_process_drone_survey env).1 =
        ⟨"error", some e, env.taskUuid, none, none, []⟩) := by
  refine ⟨rfl, fun msg => rfl, rfl, fun oc oc' => rfl, fun e he => ?_⟩
  simp [nodeodm_process_drone_survey, he]

/-! ## Backend selection and fallback
(`odm_service.py` `process_drone_survey`) -/

/-- Result of `ODMService.process_drone_survey`, extended with the
number of invocations of each backend path. -/
structure Orchestration where
  result : SurveyDict
  remoteCalls : ℕ
  localCalls : ℕ
deriving DecidableEq, Repr

/-- `ODMService.process_drone_survey` (lines 89-97): when NodeODM is
enabled and a client exists, call `_process_with_nodeodm` (whose result,
including any caught exception converted to an error dict, is
`remoteResult`); if its status is not `"success"`, fall back to
`_process_with_local_odm` (whose result is `localResult`) and return
that; otherwise return the remote result.  Without NodeODM, go local
directly. -/
def odm_process_drone_survey (useNodeodm hasClient : Bool)
    (remoteResult localResult : SurveyDict) : Orchestration :=
  if useNodeodm && hasClient then
    if remoteResult.status ≠ "success" then ⟨localResult, 1, 1⟩
    else ⟨remoteResult, 1, 0⟩
  else ⟨localResult, 0, 1⟩

/-- C7.  When the remote path fails (any non-success status, in
particular the error dict produced when the remote task reports FAILED
and `wait_for_task` raises), the orchestrator invokes the local backend
exactly once and its result is the local backend's result verbatim; the
local backend is never invoked more than once in any configuration, so
a local failure is terminal -- the orchestrator returns the local error
result as is, with no second fallback. -/
theorem fallback_once_spec (remoteResult localResult : SurveyDict)
    (hfail : remoteResult.status ≠ "success") :
    (odm_process_drone_survey true true remoteResult localResult).result
        = localResult ∧
    (odm_process_drone_survey true true remoteResult localResult).localCalls
        = 1 ∧
    (odm_process_drone_survey true true remoteResult localResult).remoteCalls
        = 1 ∧
    (∀ u h r l, (odm_process_drone_survey u h r l).localCalls ≤ 1) ∧
    (localResult.status = "error" →
      (odm_process_drone_survey true true remoteResult
          localResult).result.status = "error") ∧
    (∀ env : NodeodmEnv, ∀ e, env.waitOutcome = Except.error e →
      (nodeodm_process_drone_survey env).1.status ≠ "success") := by
  refine ⟨?_, ?_, ?_, ?_, ?_, ?_⟩
  · simp [odm_process_drone_survey, hfail]
  · simp [odm_process_drone_survey, hfail]
  · simp [odm_process_drone_survey, hfail]
  · intro u h r l
    rw [odm_process_drone_survey]
    split_ifs <;> simp
  · intro hl
    simp [odm_process_drone_survey, hfail, hl]
  · intro env e he
    simp [nodeodm_process_drone_survey, he]

/-- C7 -- witness for `fallback_once_spec`: the remote path reports an
error dict, the local path a success dict. -/
theorem fallback_once_spec_witness :
    (SurveyDict.status ⟨"error", some "Task failed", "u1", none, none, []⟩
        ≠ "success") ∧
    ((odm_process_drone_survey true true
          ⟨"error", some "Task failed", "u1", none, none, []⟩
          ⟨"success", none, "", some "p.tif", none, []⟩).result
        = ⟨"success", none, "", some "p.tif", none, []⟩ ∧
      (odm_process_drone_survey true true
          ⟨"error", some "Task failed", "u1", none, none, []⟩
          ⟨"success", none, "", some "p.tif", none, []⟩).localCalls = 1 ∧
      (odm_process_drone_survey true true
          ⟨"error", some "Task failed", "u1", none, none, []⟩
          ⟨"success", none, "", some "p.tif", none, []⟩).remoteCalls = 1 ∧
      (∀ u h r l, (odm_process_drone_survey u h r l).localCalls ≤ 1) ∧
      (SurveyDict.status ⟨"success", none, "", some "p.tif", none, []⟩
          = "error" →
        (odm_process_drone_survey true true
            ⟨"error", some "Task failed", "u1", none, none, []⟩
            ⟨"success", none, "", some "p.tif", none, []⟩).result.status
          = "error") ∧
      (∀ env : NodeodmEnv, ∀ e, env.waitOutcome = Except.error e →
        (nodeodm_process_drone_survey env).1.status ≠ "success")) :=
  ⟨by decide,
    fallback_once_spec ⟨"error", some "Task failed", "u1", none, none, []⟩
      ⟨"success", none, "", some "p.tif", none, []⟩ (by decide)⟩

/-! ## Local ODM runner (`odm_service.py` `_run_odm_processing`,
`_process_with_local_odm`) -/

/-- Outcome of the single `subprocess.run` invocation of the ODM
executable: normal exit with a return code and captured output streams,
`subprocess.TimeoutExpired` after the one-hour budget, or any other
exception. -/
inductive RunOutcome where
  | exited (returncode : ℤ) (stdout stderr : String)
  | timeoutExpired
  | raised (msg : String)
deriving DecidableEq, Repr

/-- The dict returned by `_run_odm_processing`. -/
structure RunOdmResult where
  status : String
  log : String
  time : ℚ
deriving DecidableEq, Repr

/-- `_run_odm_processing` (lines 221-261): run the fixed ODM command
once and convert every outcome into a result dict -- it never raises and
never retries.  Zero exit gives `success` with stdout as the log;
nonzero exit gives `error` with the captured stderr as the log;
`TimeoutExpired` gives `timeout` with the fixed message and time 3600;
any other exception gives `error` with its message and time 0.
`elapsed` is the measured wall-clock duration. -/
def run_odm_processing (oc : RunOutcome) (elapsed : ℚ) : RunOdmResult :=
  match oc with
  | .exited rc out err =>
    if rc = 0 then ⟨"success", out, elapsed⟩ else ⟨"error", err, elapsed⟩
  | .timeoutExpired => ⟨"timeout", "Processing timed out after 1 hour", 3600⟩
  | .raised msg => ⟨"error", msg, 0⟩

/-- C9.  The local processing runner always returns a structured result
(one of `success`, `error`, `timeout` -- its match over outcomes is
total, so nothing is rethrown): budget exhaustion yields `status =
"timeout"` with no retry (the single invocation is simply converted to
the fixed timeout dict), and a nonzero process exit yields `status =
"error"` with the captured standard error as the log. -/
theorem run_odm_spec (oc : RunOutcome) (elapsed : ℚ) :
    ((run_odm_processing oc elapsed).status = "success" ∨
      (run_odm_processing oc elapsed).status = "error" ∨
      (run_odm_processing oc elapsed).status = "timeout") ∧
    run_odm_processing RunOutcome.timeoutExpired elapsed =
      ⟨"timeout", "Processing timed out after 1 hour", 3600⟩ ∧
    (∀ rc out err, rc ≠ 0 →
      run_odm_processing (RunOutcome.exited rc out err) elapsed =
        ⟨"error", err, elapsed⟩) ∧
    (∀ out err, run_odm_processing (RunOutcome.exited 0 out err) elapsed =
      ⟨"success", out, elapsed⟩) := by
  refine ⟨?_, rfl, ?_, fun out err => rfl⟩
  · rcases oc with ⟨rc, out, err⟩ | _ | msg
    · rw [run_odm_processing]
      split_ifs <;> simp
    · simp [run_odm_processing]
    · simp [run_odm_processing]
  · intro rc out err hrc
    rw [run_odm_processing, if_neg hrc]

/-- C9 -- witness for `run_odm_spec` at a nonzero exit with elapsed time
7. -/
theorem run_odm_spec_witness :
    (((run_odm_processing (RunOutcome.exited 1 "out" "boom") 7).status
          = "success" ∨
        (run_odm_processing (RunOutcome.exited 1 "out" "boom") 7).status
          = "error" ∨
        (run_odm_processing (RunOutcome.exited 1 "out" "boom") 7).status
          = "timeout") ∧
      run_odm_processing RunOutcome.timeoutExpired 7 =
        ⟨"timeout", "Processing timed out after 1 hour", 3600⟩ ∧
      (∀ rc out err, rc ≠ 0 →
        run_odm_processing (RunOutcome.exited rc out err) 7 =
          ⟨"error", err, 7⟩) ∧
      (∀ out err, run_odm_processing (RunOutcome.exited 0 out err) 7 =
        ⟨"success", out, 7⟩)) ∧
    run_odm_processing (RunOutcome.exited 1 "out" "boom") 7 =
      ⟨"error", "boom", 7⟩ :=
  ⟨run_odm_spec (RunOutcome.exited 1 "out" "boom") 7, by decide⟩

/-- The dict returned by `_process_with_local_odm` on its normal path. -/
structure LocalOdmResult where
  status : String
  orthomosaic_path : Option String
  ndvi_path : Option String
  processing_log : String
  processing_time : ℚ
deriving DecidableEq, Repr

/-- `_process_with_local_odm` (lines 165-181), the path on which the
runner invocation does not raise (it never does): run the processing,
look for the orthomosaic and NDVI artifacts (`_find_orthomosaic` /
`_find_ndvi` return a found path or `None`; modelled as oracle options),
and unconditionally build a `status = "success"` dict with `None` paths
when no artifact exists; the runner's own status field is dropped, only
its log and time are copied into the result. -/
def process_with_local_odm (oc : RunOutcome) (elapsed : ℚ)
    (ortho ndvi : Option String) : LocalOdmResult :=
  ⟨"success", ortho, ndvi, (run_odm_processing oc elapsed).log,
    (run_odm_processing oc elapsed).time⟩

/-- C10.  The local-backend driver reports `status = "success"` for
every runner outcome -- including runs the runner itself classified as
`error` or `timeout` -- with `None` artifact paths when none were found,
so by the status field alone a failed local run is indistinguishable
from a successful run with missing artifacts: the status is identical
across all runner outcomes and artifact configurations. -/
theorem local_status_always_success (oc oc' : RunOutcome) (e e' : ℚ)
    (ortho ndvi ortho' ndvi' : Option String) :
    (process_with_local_odm oc e ortho ndvi).status = "success" ∧
    ((run_odm_processing oc e).status = "error" ∨
        (run_odm_processing oc e).status = "timeout" →
      (process_with_local_odm oc e none none).status = "success" ∧
      (process_with_local_odm oc e none none).orthomosaic_path = none ∧
      (process_with_local_odm oc e none none).ndvi_path = none) ∧
    (process_with_local_odm oc e ortho ndvi).status =
      (process_with_local_odm oc' e' ortho' ndvi').status :=
  ⟨rfl, fun _ => ⟨rfl, rfl, rfl⟩, rfl⟩

end Verdis
